import Mathlib

/-!
Verification of the posture-monitoring repository.

Shallow embedding of the three JavaScript sources:
* the backend server (first revision) in `src/backend/server.js`,
* the improved backend server (second revision, `PostureAnalyzer` with
  confidence handling, `cleanupSessions`) in `src/unnamed/part_000`,
* the browser front-end (`PostureMonitor`) in `src/frontend/app.js`.

Machine numbers are modelled as exact rationals (`ℚ`); the transcendental
geometry (`Math.sqrt`, `Math.acos`, `Math.atan2`) is modelled over `ℝ`.
The one unguarded floating-point division (forward-head distance divided by
a possibly zero shoulder width) is modelled by the exact IEEE outcome of the
comparison that consumes it, see `jsDivGt`.
-/

/-- A pose keypoint as delivered per frame: a landmark name, normalized
coordinates and a confidence score. -/
structure Keypoint where
  name : String
  x : ℚ
  y : ℚ
  score : ℚ
deriving Repr, DecidableEq

/-- Landmark name constants used by the sources. -/
def noseName : String := "nose"

def leftShoulderName : String := "left_shoulder"

def rightShoulderName : String := "right_shoulder"

def leftHipName : String := "left_hip"

def rightHipName : String := "right_hip"

def leftEarName : String := "left_ear"

def rightEarName : String := "right_ear"

namespace PostureAnalyzer

/-- Result record of the second-revision backend
`PostureAnalyzer.analyzePosture`: three boolean posture flags, the overall
score and the confidence.  (This revision's record has no `valid` field;
the source field `torsoLean` is rendered `torsoLeanFlag`.) -/
structure Analysis where
  forwardHead : Bool
  roundedShoulders : Bool
  torsoLeanFlag : Bool
  overallScore : ℚ
  confidence : ℚ
deriving Repr, DecidableEq

/-- The `keypointMap` built at the top of the second-revision
`analyzePosture`: `keypoints.forEach(kp => { if (kp.score > 0.2)
keypointMap[kp.name] = kp })`.  Successive assignments overwrite, so the
last keypoint of a given name with score above the floor wins; the
reversed `find?` captures that. -/
def keypointMap (keypoints : List Keypoint) (name : String) : Option Keypoint :=
  ((keypoints.filter (fun kp => decide ((1 : ℚ)/5 < kp.score))).reverse).find?
    (fun kp => kp.name == name)

/-- IEEE outcome of the JavaScript comparison `num / den > thr` for a
denominator known to be nonnegative (it is an absolute value in the
source).  When `den = 0` JavaScript yields `Infinity`, `-Infinity` or
`NaN` for the quotient, and the comparison with the finite threshold then
holds exactly when the numerator is positive. -/
def jsDivGt (num den thr : ℚ) : Bool :=
  if den = 0 then decide (0 < num) else decide (thr < num / den)

end PostureAnalyzer

/-- A backend history entry: `{ timestamp: now, analysis: analysis }`
(second revision). -/
structure TimedAnalysis where
  timestamp : ℤ
  analysis : PostureAnalyzer.Analysis
deriving Repr, DecidableEq

/-- Second-revision history push: `if (history.length >= 50) shift(); push(...)`
(`POSTURE_HISTORY_MAX = 50`). -/
def historyRecordV2 (history : List TimedAnalysis) (e : TimedAnalysis) :
    List TimedAnalysis :=
  if 50 ≤ history.length then history.tail ++ [e] else history ++ [e]

/-- Second-revision `slice(-10)`: the last ten history entries. -/
def lastTen (history : List TimedAnalysis) : List TimedAnalysis :=
  history.drop (history.length - 10)

/-- Second-revision poor-posture count over the last ten readings:
entries with `overallScore < 60 && confidence > 0.5`. -/
def poorPostureCountV2 (history : List TimedAnalysis) : ℕ :=
  ((lastTen history).filter
    (fun r => decide (r.analysis.overallScore < 60) &&
              decide ((1 : ℚ)/2 < r.analysis.confidence))).length

/-- Second-revision alert decision: the check runs only every tenth frame
once at least ten readings exist, and fires when the poor count reaches
`ALERT_THRESHOLD = 6`. -/
def shouldAlertV2 (frameCount : ℕ) (history : List TimedAnalysis) : Bool :=
  (frameCount % 10 == 0) && (10 ≤ history.length) && (6 ≤ poorPostureCountV2 history)

/-- A first-revision backend history entry: `{ ts: new Date(), score }`. -/
structure ServerReading where
  ts : ℕ
  score : ℚ
deriving Repr, DecidableEq

/-- First-revision history push: `push(...); if (history.length > 100) shift()`. -/
def serverRecord (history : List ServerReading) (e : ServerReading) :
    List ServerReading :=
  let h2 := history ++ [e]
  if 100 < h2.length then h2.tail else h2

/-- First-revision `posture-data` handler, alert part: push the reading,
then alert when at least 8 of the last 10 scores are below 60.  There is
no cooldown state anywhere in this handler. -/
def serverStep (history : List ServerReading) (t : ℕ) (score : ℚ) :
    List ServerReading × Bool :=
  let h2 := serverRecord history ⟨t, score⟩
  let last10 := h2.drop (h2.length - 10)
  (h2, 8 ≤ (last10.filter (fun r => decide (r.score < 60))).length)

/-- Run the first-revision handler over a trace of timestamped scores and
collect the times at which a `posture-alert` was emitted. -/
def serverRun (history : List ServerReading) : List (ℕ × ℚ) → List ℕ
  | [] => []
  | (t, s) :: rest =>
    let step := serverStep history t s
    if step.2 then t :: serverRun step.1 rest else serverRun step.1 rest

namespace PostureMonitor

/-- Front-end posture metrics (`analyzePosture`'s `metrics` object). -/
structure Metrics where
  forwardHead : Bool
  roundedShoulders : Bool
  torsoLeanFlag : Bool
  neckAngle : ℝ
  shoulderSlope : ℝ
  torsoAngle : ℝ

/-- Front-end assessment: `{ overallScore, confidence, valid, metrics? }`.
`overallScore` stays rational: the analyzer rounds to an integer and the
smoother forms rational convex combinations. -/
structure Assessment where
  overallScore : ℚ
  confidence : ℚ
  valid : Bool
  metrics : Option Metrics

/-- `addToHistory`: push, then drop the oldest entry once more than 10 are
held. -/
def addToHistory (history : List Assessment) (a : Assessment) : List Assessment :=
  let h2 := history ++ [a]
  if 10 < h2.length then h2.tail else h2

/-- `getSmoothedAnalysis`: invalid assessments pass through untouched; with
fewer than 3 held entries the current assessment passes through but is
recorded; otherwise the score is blended with the window mean using
`smoothingAlpha = 0.7` and the blended assessment is recorded.  Returns the
produced assessment together with the updated history (the source mutates
`this.postureHistory`). -/
def getSmoothedAnalysis (history : List Assessment) (current : Assessment) :
    Assessment × List Assessment :=
  if current.valid = false then (current, history)
  else if history.length < 3 then (current, addToHistory history current)
  else
    let avg := (history.map (fun x => x.overallScore)).sum / history.length
    let smoothed :=
      { current with overallScore := (7 : ℚ)/10 * current.overallScore + (3 : ℚ)/10 * avg }
    (smoothed, addToHistory history smoothed)

/-- Feed a stream of raw assessments through the smoother, collecting the
outputs and the final history. -/
def runSmoother (history : List Assessment) :
    List Assessment → List Assessment × List Assessment
  | [] => ([], history)
  | c :: rest =>
    let step := getSmoothedAnalysis history c
    let next := runSmoother step.2 rest
    (step.1 :: next.1, next.2)

/-- `canShowAlert`: a front-end alert may show only when more than two
minutes (120000 ms) have passed since the last shown alert. -/
def canShowAlert (lastAlertTime now : ℕ) : Bool :=
  decide (120000 < now - lastAlertTime)

/-- `showAlert`'s cooldown behaviour: bail out unless `canShowAlert`, and
when showing, set `stats.lastAlertTime = Date.now()`.  Returns the new
`lastAlertTime` and whether the alert was shown. -/
def showAlert (lastAlertTime now : ℕ) : ℕ × Bool :=
  if canShowAlert lastAlertTime now then (now, true) else (lastAlertTime, false)

/-- Run a sequence of alert attempts (e.g. poor smoothed scores or
backend `posture-alert` events) through `showAlert`, collecting the times
at which an alert was actually shown. -/
def runAlerts (lastAlertTime : ℕ) : List ℕ → List ℕ
  | [] => []
  | t :: ts =>
    if (showAlert lastAlertTime t).2
    then t :: runAlerts (showAlert lastAlertTime t).1 ts
    else runAlerts (showAlert lastAlertTime t).1 ts

end PostureMonitor

/-- A second-revision backend session (the fields mutated by the
`posture-data` handler and inspected by `cleanupSessions`). -/
structure SessionV2 where
  id : String
  connectedAt : ℤ
  lastActivity : ℤ
  postureHistory : List TimedAnalysis
  lastAnalysis : Option PostureAnalyzer.Analysis
  frameCount : ℕ
deriving Repr, DecidableEq

/-- `MAX_SESSION_AGE = 30 * 60 * 1000` (30 minutes, in ms). -/
def MAX_SESSION_AGE : ℤ := 30 * 60 * 1000

/-- Outcome of one `cleanupSessions()` run: the surviving session table,
the ids written to the log (one line per deleted session), and the
function's JavaScript return value — the source has no `return`
statement, so the call evaluates to `undefined`, modelled as `none`. -/
structure CleanupResult where
  store : List (String × SessionV2)
  logs : List String
  retVal : Option (List String)
deriving Repr, DecidableEq

/-- `cleanupSessions`: delete every session with
`now - session.lastActivity > MAX_SESSION_AGE`, logging each deleted id;
the function itself returns nothing. -/
def cleanupSessions (now : ℤ) (sessions : List (String × SessionV2)) :
    CleanupResult :=
  { store := sessions.filter
      (fun p => !(decide (MAX_SESSION_AGE < now - p.2.lastActivity)))
  , logs := (sessions.filter
      (fun p => decide (MAX_SESSION_AGE < now - p.2.lastActivity))).map
      (fun p => p.1)
  , retVal := none }

/-! ### Generic bounded-history step

All three history buffers (first-revision backend, cap 100; second-revision
backend, cap 50; front-end, cap 10) reduce to the same step function. -/

/-- Evict-then-append step of a bounded history of capacity `N`. -/
def capStep (N : ℕ) (h : List α) (e : α) : List α :=
  if N ≤ h.length then h.tail ++ [e] else h ++ [e]

theorem serverRecord_eq_capStep (h : List ServerReading) (e : ServerReading) :
    serverRecord h e = capStep 100 h e := by
  unfold serverRecord capStep
  by_cases hl : 100 ≤ h.length
  · have h1 : 100 < (h ++ [e]).length := by simp; omega
    rw [if_pos h1, if_pos hl]
    cases h with
    | nil => simp at hl
    | cons a t => simp
  · have h1 : ¬ 100 < (h ++ [e]).length := by simp; omega
    rw [if_neg h1, if_neg hl]

theorem historyRecordV2_eq_capStep (h : List TimedAnalysis) (e : TimedAnalysis) :
    historyRecordV2 h e = capStep 50 h e := rfl

theorem addToHistory_eq_capStep (h : List PostureMonitor.Assessment)
    (e : PostureMonitor.Assessment) :
    PostureMonitor.addToHistory h e = capStep 10 h e := by
  unfold PostureMonitor.addToHistory capStep
  by_cases hl : 10 ≤ h.length
  · have h1 : 10 < (h ++ [e]).length := by simp; omega
    rw [if_pos h1, if_pos hl]
    cases h with
    | nil => simp at hl
    | cons a t => simp
  · have h1 : ¬ 10 < (h ++ [e]).length := by simp; omega
    rw [if_neg h1, if_neg hl]

theorem capStep_drop (N : ℕ) (hN : 1 ≤ N) (xs : List α) (x : α) :
    capStep N (xs.drop (xs.length - N)) x = (xs ++ [x]).drop (xs.length + 1 - N) := by
  by_cases h : N ≤ xs.length
  · have hlen : (xs.drop (xs.length - N)).length = N := by
      simp [List.length_drop]; omega
    rw [capStep, if_pos (le_of_eq hlen.symm), List.tail_drop,
      List.drop_append_eq_append_drop]
    have h1 : xs.length - N + 1 = xs.length + 1 - N := by omega
    have h2 : xs.length + 1 - N - xs.length = 0 := by omega
    rw [h1, h2, List.drop_zero]
  · have hcond : ¬ N ≤ (xs.drop (xs.length - N)).length := by
      simp [List.length_drop]; omega
    have h0 : xs.length - N = 0 := by omega
    have h1 : xs.length + 1 - N = 0 := by omega
    rw [capStep, if_neg hcond, h0, h1, List.drop_zero, List.drop_zero]

theorem foldl_capStep (N : ℕ) (hN : 1 ≤ N) (xs : List α) :
    xs.foldl (capStep N) [] = xs.drop (xs.length - N) := by
  induction xs using List.reverseRecOn with
  | nil => simp
  | append_singleton ys y ih =>
    rw [List.foldl_append, List.foldl_cons, List.foldl_nil, ih, capStep_drop N hN]
    simp

/-- C6.  Each of the three history stores keeps at most its configured
capacity (100 for the first-revision backend, 50 for the second revision,
10 for the front-end) after any number of record operations from an empty
history, and the held history is exactly the chronological suffix of the
recorded stream — the oldest entries are the ones evicted. -/
theorem history_capacity_fifo :
    (∀ xs : List ServerReading,
        xs.foldl serverRecord [] = xs.drop (xs.length - 100)
      ∧ (xs.foldl serverRecord []).length ≤ 100)
  ∧ (∀ xs : List TimedAnalysis,
        xs.foldl historyRecordV2 [] = xs.drop (xs.length - 50)
      ∧ (xs.foldl historyRecordV2 []).length ≤ 50)
  ∧ (∀ xs : List PostureMonitor.Assessment,
        xs.foldl PostureMonitor.addToHistory [] = xs.drop (xs.length - 10)
      ∧ (xs.foldl PostureMonitor.addToHistory []).length ≤ 10) := by
  have hs : serverRecord = capStep 100 := by
    funext h e; exact serverRecord_eq_capStep h e
  have hf : PostureMonitor.addToHistory = capStep 10 := by
    funext h e; exact addToHistory_eq_capStep h e
  have hv : historyRecordV2 = capStep 50 := by
    funext h e; exact historyRecordV2_eq_capStep h e
  refine ⟨fun xs => ?_, fun xs => ?_, fun xs => ?_⟩
  · rw [hs, foldl_capStep 100 (by omega) xs]
    exact ⟨rfl, by simp [List.length_drop]; omega⟩
  · rw [hv, foldl_capStep 50 (by omega) xs]
    exact ⟨rfl, by simp [List.length_drop]; omega⟩
  · rw [hf, foldl_capStep 10 (by omega) xs]
    exact ⟨rfl, by simp [List.length_drop]; omega⟩

/-! ### Front-end alert cooldown -/

theorem runAlerts_cons_pos (s t : ℕ) (ts : List ℕ)
    (hc : PostureMonitor.canShowAlert s t = true) :
    PostureMonitor.runAlerts s (t :: ts) = t :: PostureMonitor.runAlerts t ts := by
  simp [PostureMonitor.runAlerts, PostureMonitor.showAlert, hc]

theorem runAlerts_cons_neg (s t : ℕ) (ts : List ℕ)
    (hc : PostureMonitor.canShowAlert s t = false) :
    PostureMonitor.runAlerts s (t :: ts) = PostureMonitor.runAlerts s ts := by
  simp [PostureMonitor.runAlerts, PostureMonitor.showAlert, hc]

theorem runAlerts_head (s : ℕ) (ts : List ℕ) (t1 : ℕ)
    (h : (PostureMonitor.runAlerts s ts).head? = some t1) : 120000 < t1 - s := by
  induction ts generalizing s with
  | nil => simp [PostureMonitor.runAlerts] at h
  | cons t ts ih =>
    by_cases hc : PostureMonitor.canShowAlert s t = true
    · rw [runAlerts_cons_pos s t ts hc] at h
      simp only [List.head?_cons, Option.some.injEq] at h
      subst h
      simpa [PostureMonitor.canShowAlert] using hc
    · rw [runAlerts_cons_neg s t ts (by simpa using hc)] at h
      exact ih s h

theorem runAlerts_chain (s : ℕ) (ts : List ℕ) :
    List.Chain' (fun a b => 120000 < b - a) (PostureMonitor.runAlerts s ts) := by
  induction ts generalizing s with
  | nil => simp [PostureMonitor.runAlerts]
  | cons t ts ih =>
    by_cases hc : PostureMonitor.canShowAlert s t = true
    · rw [runAlerts_cons_pos s t ts hc]
      refine List.chain'_cons'.mpr ⟨fun y hy => ?_, ih t⟩
      exact runAlerts_head t ts y hy
    · rw [runAlerts_cons_neg s t ts (by simpa using hc)]
      exact ih s

/-- C3 counterexample.  The first-revision backend applies no cooldown at
all: nine consecutive poor readings submitted 100 ms apart make it emit
`posture-alert` twice, at 700 ms and 800 ms — two alerts only 100 ms
apart, far inside the two-minute cooldown the claim asserts. -/
theorem server_alert_no_cooldown_cex :
    serverRun [] ((List.range 9).map (fun i => (100 * i, (40 : ℚ)))) = [700, 800]
  ∧ 800 - 700 < 120000 := by
  constructor
  · rfl
  · omega

/-- C3 (amended).  The two-minute cooldown lives in the front-end
`showAlert`: an alert shows only when more than 120000 ms have passed
since `stats.lastAlertTime`, a shown alert resets `lastAlertTime` to the
current time, and hence along any sequence of alert attempts every two
consecutively shown alerts are more than 120000 ms apart.  (The backend
`posture-alert` emitters have no cooldown; see the counterexample.) -/
theorem frontend_alert_cooldown :
    (∀ s t : ℕ, (PostureMonitor.showAlert s t).2 = true ↔ 120000 < t - s)
  ∧ (∀ s t : ℕ, (PostureMonitor.showAlert s t).2 = true →
      (PostureMonitor.showAlert s t).1 = t)
  ∧ (∀ ts : List ℕ,
      List.Chain' (fun a b => 120000 < b - a) (PostureMonitor.runAlerts 0 ts)) := by
  refine ⟨fun s t => ?_, fun s t h => ?_, fun ts => runAlerts_chain 0 ts⟩
  · constructor
    · intro h
      by_cases hc : PostureMonitor.canShowAlert s t = true
      · simpa [PostureMonitor.canShowAlert] using hc
      · simp [PostureMonitor.showAlert, if_neg hc] at h
    · intro h
      have hc : PostureMonitor.canShowAlert s t = true := by
        simpa [PostureMonitor.canShowAlert] using h
      simp [PostureMonitor.showAlert, if_pos hc]
  · by_cases hc : PostureMonitor.canShowAlert s t = true
    · simp [PostureMonitor.showAlert, if_pos hc]
    · simp [PostureMonitor.showAlert, if_neg hc] at h

/-- Witness for C3's theorem: with the initial state (`lastAlertTime = 0`)
an attempt at time 200000 fires and moves `lastAlertTime` to 200000. -/
theorem frontend_alert_cooldown_witness :
    (PostureMonitor.showAlert 0 200000).1 = 200000
  ∧ List.Chain' (fun a b => 120000 < b - a)
      (PostureMonitor.runAlerts 0 [200000, 250000, 350000]) :=
  ⟨frontend_alert_cooldown.2.1 0 200000
      (frontend_alert_cooldown.1 0 200000 |>.mpr (by omega)),
    frontend_alert_cooldown.2.2 [200000, 250000, 350000]⟩

/-! ### Confidence gating of the second-revision alert check -/

theorem filter_length_le_of_imp (l : List α) (p q : α → Bool)
    (h : ∀ a, p a = true → q a = true) :
    (l.filter p).length ≤ (l.filter q).length := by
  induction l with
  | nil => simp
  | cons a t ih =>
    by_cases hp : p a = true
    · rw [List.filter_cons_of_pos hp, List.filter_cons_of_pos (h a hp)]
      simpa using ih
    · rw [List.filter_cons_of_neg (by simpa using hp)]
      by_cases hq : q a = true
      · rw [List.filter_cons_of_pos hq]
        exact le_trans ih (by simp)
      · rw [List.filter_cons_of_neg (by simpa using hq)]
        exact ih

theorem filter_length_add_not (l : List α) (p : α → Bool) :
    (l.filter p).length + (l.filter (fun a => !(p a))).length = l.length := by
  induction l with
  | nil => simp
  | cons a t ih =>
    by_cases hp : p a = true
    · rw [List.filter_cons_of_pos hp, List.filter_cons_of_neg (by simp [hp])]
      simp only [List.length_cons, List.length]
      omega
    · rw [List.filter_cons_of_neg (by simpa using hp),
        List.filter_cons_of_pos (by simp [hp])]
      simp only [List.length_cons, List.length]
      omega

/-- C4.  The second-revision alert check counts only readings with
`overallScore < 60` and `confidence > 0.5`; consequently, whenever at
least 5 (= K − threshold + 1 = 10 − 6 + 1) of the last 10 readings have
confidence at or below 0.5, no alert fires — regardless of the frame
counter and however poor the scores are. -/
theorem lowConfidence_blocks_alert (frameCount : ℕ) (history : List TimedAnalysis)
    (h : 5 ≤ ((lastTen history).filter
        (fun r => decide (r.analysis.confidence ≤ (1 : ℚ)/2))).length) :
    shouldAlertV2 frameCount history = false := by
  have hlen : (lastTen history).length ≤ 10 := by
    simp [lastTen, List.length_drop]; omega
  have himp : ∀ r : TimedAnalysis,
      (decide (r.analysis.overallScore < 60) &&
        decide ((1 : ℚ)/2 < r.analysis.confidence)) = true →
      (!(decide (r.analysis.confidence ≤ (1 : ℚ)/2))) = true := by
    intro r hr
    simp only [Bool.and_eq_true, decide_eq_true_eq] at hr
    have h2 : ¬ (r.analysis.confidence ≤ (1 : ℚ)/2) := not_le.mpr hr.2
    simpa using h2
  have hle := filter_length_le_of_imp (lastTen history) _ _ himp
  have hsum := filter_length_add_not (lastTen history)
      (fun r => decide (r.analysis.confidence ≤ (1 : ℚ)/2))
  have hpoor : poorPostureCountV2 history ≤ 5 := by
    have hnot : ((lastTen history).filter
        (fun r => !(decide (r.analysis.confidence ≤ (1 : ℚ)/2)))).length ≤ 5 := by
      omega
    exact le_trans hle hnot
  have hno : ¬ (6 ≤ poorPostureCountV2 history) := by omega
  simp [shouldAlertV2, hno]

/-- A poor low-confidence reading: score 40, confidence 0.4. -/
def lowConfReading : TimedAnalysis := ⟨0, ⟨true, false, false, 40, (2 : ℚ)/5⟩⟩

/-- Witness for C4: ten poor readings of confidence 0.4 never alert. -/
theorem lowConfidence_blocks_alert_witness :
    shouldAlertV2 10 (List.replicate 10 lowConfReading) = false :=
  lowConfidence_blocks_alert 10 (List.replicate 10 lowConfReading) (by
    have hlast : lastTen (List.replicate 10 lowConfReading)
        = List.replicate 10 lowConfReading := by
      simp [lastTen]
    rw [hlast]
    have hc : lowConfReading.analysis.confidence ≤ (1 : ℚ)/2 := by
      norm_num [lowConfReading]
    norm_num [List.replicate_succ, List.filter_cons, hc])

/-! ### Idle session sweep -/

/-- Sample session id for concrete runs. -/
def sampleId : String := "a"

/-- A session idle since time 0. -/
def staleSession : SessionV2 := ⟨sampleId, 0, 0, [], none, 0⟩

/-- C9 counterexample.  `cleanupSessions` does remove the stale session
and logs its id, but its JavaScript return value is `undefined` — it does
not return the removed ids as the claim states. -/
theorem cleanupSessions_returns_nothing_cex :
    (cleanupSessions 1800001 [(sampleId, staleSession)]).store = []
  ∧ (cleanupSessions 1800001 [(sampleId, staleSession)]).logs = [sampleId]
  ∧ (cleanupSessions 1800001 [(sampleId, staleSession)]).retVal = none
  ∧ ¬ (cleanupSessions 1800001 [(sampleId, staleSession)]).retVal
        = some [sampleId] := by
  refine ⟨rfl, rfl, rfl, ?_⟩
  intro h
  exact Option.noConfusion h

/-- C9 (amended).  The sweep removes exactly the sessions whose
`lastActivity` is more than `MAX_SESSION_AGE` (30 minutes) old at sweep
time: a session survives iff it was in the store and is not stale, every
stale session's id is written to the log and every logged id belongs to a
stale session — but the function returns `undefined` (not the removed
ids, which are only logged). -/
theorem cleanupSessions_sweep_exact (now : ℤ) (sessions : List (String × SessionV2)) :
    (∀ p : String × SessionV2,
        p ∈ (cleanupSessions now sessions).store ↔
          p ∈ sessions ∧ now - p.2.lastActivity ≤ MAX_SESSION_AGE)
  ∧ (∀ p : String × SessionV2, p ∈ sessions →
        MAX_SESSION_AGE < now - p.2.lastActivity →
        p.1 ∈ (cleanupSessions now sessions).logs)
  ∧ (∀ i : String, i ∈ (cleanupSessions now sessions).logs →
        ∃ p : String × SessionV2, p ∈ sessions ∧ p.1 = i ∧
          MAX_SESSION_AGE < now - p.2.lastActivity)
  ∧ (cleanupSessions now sessions).retVal = none := by
  refine ⟨fun p => ?_, fun p hp hstale => ?_, fun i hi => ?_, rfl⟩
  · simp [cleanupSessions, List.mem_filter, not_lt]
  · simp only [cleanupSessions, List.mem_map]
    exact ⟨p, List.mem_filter.mpr ⟨hp, by simpa using hstale⟩, rfl⟩
  · simp only [cleanupSessions, List.mem_map] at hi
    obtain ⟨p, hp, hpi⟩ := hi
    have hp2 := List.mem_filter.mp hp
    exact ⟨p, hp2.1, hpi, by simpa using hp2.2⟩

/-- Witness for C9's theorem: a session 31 minutes idle is gone after the
sweep and its id is logged. -/
theorem cleanupSessions_sweep_exact_witness :
    (sampleId, staleSession) ∉ (cleanupSessions 1860000 [(sampleId, staleSession)]).store
  ∧ sampleId ∈ (cleanupSessions 1860000 [(sampleId, staleSession)]).logs := by
  constructor
  · intro hmem
    have h := ((cleanupSessions_sweep_exact 1860000
        [(sampleId, staleSession)]).1 (sampleId, staleSession)).mp hmem
    have : (1860000 : ℤ) - 0 ≤ MAX_SESSION_AGE := by
      simpa [staleSession] using h.2
    norm_num [MAX_SESSION_AGE] at this
  · exact (cleanupSessions_sweep_exact 1860000 [(sampleId, staleSession)]).2.1
      (sampleId, staleSession) (by simp)
      (by norm_num [staleSession, MAX_SESSION_AGE])

/-! ### Front-end smoother: invalid pass-through and constant fixed point -/

/-- C10.  An invalid assessment is returned unchanged by
`getSmoothedAnalysis` and the smoothing history is left untouched, so an
invalid assessment never enters the window and never influences later
smoothed output: running the smoother on `cur :: rest` produces `cur`
followed by exactly the outputs (and final history) of running it on
`rest` alone. -/
theorem invalid_passthrough_frame (hist : List PostureMonitor.Assessment)
    (cur : PostureMonitor.Assessment) (h : cur.valid = false) :
    PostureMonitor.getSmoothedAnalysis hist cur = (cur, hist)
  ∧ ∀ rest : List PostureMonitor.Assessment,
      PostureMonitor.runSmoother hist (cur :: rest) =
        ((cur :: (PostureMonitor.runSmoother hist rest).1),
          (PostureMonitor.runSmoother hist rest).2) := by
  have h1 : PostureMonitor.getSmoothedAnalysis hist cur = (cur, hist) := by
    simp [PostureMonitor.getSmoothedAnalysis, h]
  refine ⟨h1, fun rest => ?_⟩
  simp [PostureMonitor.runSmoother, h1]

/-- An invalid sample assessment. -/
def invalidSample : PostureMonitor.Assessment := ⟨0, 0, false, none⟩

/-- A valid sample assessment with score 85. -/
def validSample : PostureMonitor.Assessment := ⟨85, (9 : ℚ)/10, true, none⟩

/-- Witness for C10: the invalid sample passes through an empty history. -/
theorem invalid_passthrough_frame_witness :
    PostureMonitor.getSmoothedAnalysis [] invalidSample = (invalidSample, [])
  ∧ PostureMonitor.runSmoother [] [invalidSample, validSample] =
      ((invalidSample :: (PostureMonitor.runSmoother [] [validSample]).1),
        (PostureMonitor.runSmoother [] [validSample]).2) :=
  ⟨(invalid_passthrough_frame [] invalidSample rfl).1,
    (invalid_passthrough_frame [] invalidSample rfl).2 [validSample]⟩

theorem addToHistory_replicate (a : PostureMonitor.Assessment) (k : ℕ) :
    ∃ m, PostureMonitor.addToHistory (List.replicate k a) a = List.replicate m a := by
  unfold PostureMonitor.addToHistory
  rw [← List.replicate_succ']
  by_cases h : 10 < (List.replicate (k + 1) a).length
  · exact ⟨k, by rw [if_pos h]; simp [List.replicate_succ]⟩
  · exact ⟨k + 1, by rw [if_neg h]⟩

theorem getSmoothed_replicate (a : PostureMonitor.Assessment) (ha : a.valid = true)
    (k : ℕ) :
    ∃ m, PostureMonitor.getSmoothedAnalysis (List.replicate k a) a
      = (a, List.replicate m a) := by
  by_cases hk : (List.replicate k a).length < 3
  · refine ⟨k + 1, ?_⟩
    rw [PostureMonitor.getSmoothedAnalysis, if_neg (by simp [ha]), if_pos hk]
    have hlen : ¬ 10 < (List.replicate k a ++ [a]).length := by
      simp at hk ⊢
      omega
    rw [PostureMonitor.addToHistory, if_neg hlen, ← List.replicate_succ']
  · have hk3 : 3 ≤ k := by simpa using not_lt.mp hk
    have hk0 : (k : ℚ) ≠ 0 := Nat.cast_ne_zero.mpr (by omega)
    have havg : ((List.replicate k a).map
        (fun x => x.overallScore)).sum / ((List.replicate k a).length : ℚ)
        = a.overallScore := by
      rw [List.map_replicate, List.sum_replicate, List.length_replicate,
        nsmul_eq_mul]
      field_simp
    obtain ⟨m, hm⟩ := addToHistory_replicate a k
    refine ⟨m, ?_⟩
    rw [PostureMonitor.getSmoothedAnalysis, if_neg (by simp [ha]), if_neg hk]
    have hblend : (7 : ℚ)/10 * a.overallScore + (3 : ℚ)/10 *
        (((List.replicate k a).map (fun x => x.overallScore)).sum /
          ((List.replicate k a).length : ℚ)) = a.overallScore := by
      rw [havg]; ring
    have hsm : { a with overallScore := (7 : ℚ)/10 * a.overallScore + (3 : ℚ)/10 *
        (((List.replicate k a).map (fun x => x.overallScore)).sum /
          ((List.replicate k a).length : ℚ)) } = a := by
      rw [hblend]
    simp only [hsm, hm]

theorem runSmoother_replicate (a : PostureMonitor.Assessment) (ha : a.valid = true) :
    ∀ n k : ℕ, (PostureMonitor.runSmoother (List.replicate k a)
      (List.replicate n a)).1 = List.replicate n a := by
  intro n
  induction n with
  | zero => intro k; simp [PostureMonitor.runSmoother]
  | succ n ih =>
    intro k
    obtain ⟨m, hm⟩ := getSmoothed_replicate a ha k
    rw [List.replicate_succ, PostureMonitor.runSmoother, hm]
    simp [ih m, List.replicate_succ]

/-- C8.  With fewer than 3 held entries the smoother passes the current
valid assessment through unchanged (appending it to the history); and a
constant score is an exact fixed point: a stream of `n` identical valid
assessments produces exactly that assessment at every step — the blend
`0.7 * s + 0.3 * (mean of an all-s window)` equals `s`, with no drift. -/
theorem smoother_passthrough_and_fixed_point :
    (∀ (hist : List PostureMonitor.Assessment) (cur : PostureMonitor.Assessment),
        cur.valid = true → hist.length < 3 →
        PostureMonitor.getSmoothedAnalysis hist cur = (cur, hist ++ [cur]))
  ∧ (∀ a : PostureMonitor.Assessment, a.valid = true → ∀ n : ℕ,
        (PostureMonitor.runSmoother [] (List.replicate n a)).1
          = List.replicate n a) := by
  constructor
  · intro hist cur hv hlen
    rw [PostureMonitor.getSmoothedAnalysis, if_neg (by simp [hv]), if_pos hlen]
    have h10 : ¬ 10 < (hist ++ [cur]).length := by
      simp at hlen ⊢
      omega
    rw [PostureMonitor.addToHistory, if_neg h10]
  · intro a ha n
    simpa using runSmoother_replicate a ha n 0

/-- Witness for C8: five identical valid assessments of score 85 come out
unchanged at every step. -/
theorem smoother_passthrough_and_fixed_point_witness :
    PostureMonitor.getSmoothedAnalysis [] validSample = (validSample, [validSample])
  ∧ (PostureMonitor.runSmoother [] (List.replicate 5 validSample)).1
      = List.replicate 5 validSample :=
  ⟨by
    have h := smoother_passthrough_and_fixed_point.1 [] validSample rfl
      (by simp)
    simpa using h,
    smoother_passthrough_and_fixed_point.2 validSample rfl 5⟩

/-! ### Geometry and the two posture analyzers -/

namespace PostureAnalyzer

open Classical in
/-- Second-revision `calculateAngle`: angle at `point2` between the rays
to `point1` and `point3`, with the cosine clamped to [-1,1] before
`acos`, and a division-by-zero guard returning the neutral 180 when
either ray's magnitude is below 0.001. -/
noncomputable def calculateAngle (point1 point2 point3 : ℝ × ℝ) : ℝ :=
  let v1x := point1.1 - point2.1
  let v1y := point1.2 - point2.2
  let v2x := point3.1 - point2.1
  let v2y := point3.2 - point2.2
  let dotProduct := v1x * v2x + v1y * v2y
  let magnitude1 := Real.sqrt (v1x ^ 2 + v1y ^ 2)
  let magnitude2 := Real.sqrt (v2x ^ 2 + v2y ^ 2)
  if magnitude1 < 1/1000 ∨ magnitude2 < 1/1000 then 180
  else
    let cosine := dotProduct / (magnitude1 * magnitude2)
    Real.arccos (max (-1) (min 1 cosine)) * (180 / Real.pi)

/-- The `headPoint` of the second-revision analyzer: the ear midpoint
when both ears passed the confidence floor, otherwise the nose. -/
def headPointOf (lEar rEar : Option Keypoint) (nose : Keypoint) : ℚ × ℚ :=
  match lEar, rEar with
  | some l, some r => ((l.x + r.x) / 2, (l.y + r.y) / 2)
  | _, _ => (nose.x, nose.y)

open Classical in
/-- Second-revision `PostureAnalyzer.analyzePosture` (part_000 lines
231-338): keypoints are indexed with a 0.2 score floor; the required set
is {nose, left_shoulder, right_shoulder}; hips are optional; the score
starts at 100 and is reduced by flag deductions (35/30/25) and a
confidence penalty, clamped below at 0; an optional previous analysis is
blended in with factor 0.3 when confidence exceeds 0.6.  On a missing
required keypoint the default result (all flags false, score 100) is
returned with confidence 0 — there is no `valid` field. -/
noncomputable def analyzePosture (keypoints : List Keypoint)
    (previousAnalysis : Option Analysis) : Analysis :=
  match keypointMap keypoints noseName, keypointMap keypoints leftShoulderName,
      keypointMap keypoints rightShoulderName with
  | some nose, some leftShoulder, some rightShoulder =>
    let leftHip := keypointMap keypoints leftHipName
    let rightHip := keypointMap keypoints rightHipName
    let confidence : ℚ := (nose.score + leftShoulder.score + rightShoulder.score) / 3
    let headPoint := headPointOf (keypointMap keypoints leftEarName)
        (keypointMap keypoints rightEarName) nose
    let shoulderCenterX : ℚ := (leftShoulder.x + rightShoulder.x) / 2
    let shoulderAvgY : ℚ := (leftShoulder.y + rightShoulder.y) / 2
    let shoulderWidth : ℚ := |leftShoulder.x - rightShoulder.x|
    let forwardHeadThreshold : ℚ := 12/100 + 1/10 * (1 - confidence)
    let forwardHead : Bool :=
      jsDivGt (headPoint.1 - shoulderCenterX) shoulderWidth forwardHeadThreshold
    let roundedShoulders : Bool :=
      match leftHip, rightHip with
      | some lh, some rh =>
        let hipWidth : ℚ := |lh.x - rh.x|
        if 1/20 < hipWidth then decide (shoulderWidth / hipWidth < 3/4) else false
      | _, _ => false
    let torsoLeanFlag : Bool :=
      match leftHip, rightHip with
      | some lh, some rh =>
        let hipAvgY : ℚ := (lh.y + rh.y) / 2
        let torsoVX : ℚ := shoulderCenterX - (lh.x + rh.x) / 2
        let torsoVY : ℚ := shoulderAvgY - hipAvgY
        let leanAngle := calculateAngle
          (((shoulderCenterX + torsoVX : ℚ) : ℝ), ((shoulderAvgY + torsoVY : ℚ) : ℝ))
          (((shoulderCenterX : ℚ) : ℝ), ((shoulderAvgY : ℚ) : ℝ))
          (((shoulderCenterX : ℚ) : ℝ), ((shoulderAvgY - 1 : ℚ) : ℝ))
        decide (15 < leanAngle)
      | _, _ => false
    let deductions : ℚ := (if forwardHead then 35 else 0) +
      (if roundedShoulders then 30 else 0) + (if torsoLeanFlag then 25 else 0)
    let confidencePenalty : ℚ := (1 - confidence) * 20
    let base : ℚ := max 0 (100 - deductions - confidencePenalty)
    let overallScore : ℚ :=
      match previousAnalysis with
      | some prev =>
        if 6/10 < confidence then prev.overallScore * (3/10) + base * (7/10) else base
      | none => base
    ⟨forwardHead, roundedShoulders, torsoLeanFlag, overallScore, confidence⟩
  | _, _, _ => ⟨false, false, false, 100, 0⟩

theorem keypointMap_mem {kps : List Keypoint} {name : String} {k : Keypoint}
    (h : keypointMap kps name = some k) : k ∈ kps := by
  unfold keypointMap at h
  have h1 := List.mem_of_find?_eq_some h
  rw [List.mem_reverse] at h1
  exact (List.mem_filter.mp h1).1

end PostureAnalyzer

namespace PostureMonitor

/-- Calibration baseline captured once per session by `calibratePosture`. -/
structure Calibration where
  neckAngle : ℝ
  shoulderSlope : ℝ
  torsoAngle : ℝ

/-- `getKeypoint`: first keypoint with the given name whose score exceeds
`confidenceThreshold = 0.5`. -/
def getKeypoint (keypoints : List Keypoint) (name : String) : Option Keypoint :=
  keypoints.find? (fun kp => kp.name == name && decide ((1 : ℚ)/2 < kp.score))

theorem getKeypoint_score {kps : List Keypoint} {name : String} {k : Keypoint}
    (h : getKeypoint kps name = some k) : (1 : ℚ)/2 < k.score := by
  have h1 := List.find?_some h
  simp only [Bool.and_eq_true, decide_eq_true_eq] at h1
  exact h1.2

open Classical in
/-- JavaScript `Math.atan2(y, x)` over the reals (signed zeros cannot
arise from the rational differences fed to it, so `atan2(0, 0) = 0`). -/
noncomputable def jsAtan2 (y x : ℝ) : ℝ :=
  if 0 < x then Real.arctan (y / x)
  else if x < 0 then
    (if 0 ≤ y then Real.arctan (y / x) + Real.pi else Real.arctan (y / x) - Real.pi)
  else if 0 < y then Real.pi / 2
  else if y < 0 then -(Real.pi / 2)
  else 0

/-- `calculateNeckAngle`: |atan2(dx, dy)| in degrees, where (dx, dy) is
the nose relative to the shoulder midpoint; 0 when a point is missing. -/
noncomputable def calculateNeckAngle (nose leftShoulder rightShoulder : Option Keypoint) : ℝ :=
  match nose, leftShoulder, rightShoulder with
  | some n, some ls, some rs =>
    let shoulderMidX : ℚ := (ls.x + rs.x) / 2
    let shoulderMidY : ℚ := (ls.y + rs.y) / 2
    let dx : ℚ := n.x - shoulderMidX
    let dy : ℚ := n.y - shoulderMidY
    |jsAtan2 (dx : ℝ) (dy : ℝ) * 180 / Real.pi|
  | _, _, _ => 0

/-- `calculateShoulderSlope`: |atan2(dy, dx)| of the left-to-right
shoulder vector, in degrees; 0 when a shoulder is missing. -/
noncomputable def calculateShoulderSlope (leftShoulder rightShoulder : Option Keypoint) : ℝ :=
  match leftShoulder, rightShoulder with
  | some ls, some rs =>
    let dx : ℚ := rs.x - ls.x
    let dy : ℚ := rs.y - ls.y
    |jsAtan2 (dy : ℝ) (dx : ℝ) * 180 / Real.pi|
  | _, _ => 0

/-- `calculateTorsoAngle`: absolute mean of the two shoulder-to-hip
vector angles, in degrees; 0 when a point is missing. -/
noncomputable def calculateTorsoAngle
    (leftShoulder leftHip rightShoulder rightHip : Option Keypoint) : ℝ :=
  match leftShoulder, leftHip, rightShoulder, rightHip with
  | some ls, some lh, some rs, some rh =>
    let lvx : ℚ := lh.x - ls.x
    let lvy : ℚ := lh.y - ls.y
    let rvx : ℚ := rh.x - rs.x
    let rvy : ℚ := rh.y - rs.y
    |(jsAtan2 (lvy : ℝ) (lvx : ℝ) + jsAtan2 (rvy : ℝ) (rvx : ℝ)) / 2 / Real.pi * 180|
  | _, _, _, _ => 0

/-- `+x.toFixed(1)`: round to one decimal place. -/
noncomputable def round1 (x : ℝ) : ℝ := ((round (10 * x) : ℤ) : ℝ) / 10

open Classical in
/-- Front-end `PostureMonitor.analyzePosture` (app.js lines 174-215):
requires nose, both shoulders AND both hips above the 0.5 confidence
floor, otherwise returns the invalid sentinel
`{overallScore: 0, confidence: 0, valid: false}`.  On success it scores
the three angle features against the calibration baseline (or fixed
defaults 10/5/15), weights them 0.4/0.3/0.3, multiplies by the clamped
mean confidence of nose and shoulders and rounds. -/
noncomputable def analyzePosture (keypoints : List Keypoint)
    (calibrationData : Option Calibration) : Assessment :=
  match getKeypoint keypoints noseName, getKeypoint keypoints leftShoulderName,
      getKeypoint keypoints rightShoulderName, getKeypoint keypoints leftHipName,
      getKeypoint keypoints rightHipName with
  | some nose, some ls, some rs, some lh, some rh =>
    let neckAngle := calculateNeckAngle (some nose) (some ls) (some rs)
    let shoulderSlope := calculateShoulderSlope (some ls) (some rs)
    let torsoAngle := calculateTorsoAngle (some ls) (some lh) (some rs) (some rh)
    let neckBase : ℝ := match calibrationData with
      | some c => c.neckAngle
      | none => 10
    let shoulderBase : ℝ := match calibrationData with
      | some c => c.shoulderSlope
      | none => 5
    let torsoBase : ℝ := match calibrationData with
      | some c => c.torsoAngle
      | none => 15
    let neckScore : ℝ := max 0 (100 - max 0 (neckAngle - neckBase) * 8)
    let shoulderScore : ℝ := max 0 (100 - shoulderSlope * 10)
    let torsoScore : ℝ := max 0 (100 - torsoAngle * 5)
    let rawScore : ℝ := neckScore * (4/10) + shoulderScore * (3/10) + torsoScore * (3/10)
    let confidence : ℚ := min 1 ((nose.score + ls.score + rs.score) / 3)
    { overallScore := ((round (rawScore * (confidence : ℝ)) : ℤ) : ℚ)
    , confidence := confidence
    , valid := true
    , metrics := some
        { forwardHead := decide (neckBase + 5 < neckAngle)
        , roundedShoulders := decide (shoulderBase + 3 < shoulderSlope)
        , torsoLeanFlag := decide (torsoBase + 8 < torsoAngle)
        , neckAngle := round1 neckAngle
        , shoulderSlope := round1 shoulderSlope
        , torsoAngle := round1 torsoAngle } }
  | _, _, _, _, _ => { overallScore := 0, confidence := 0, valid := false, metrics := none }

end PostureMonitor

/-! ### C5: angle computation is total, bounded and fails closed -/

theorem arccos_deg_bounds (y : ℝ) :
    0 ≤ Real.arccos y * (180 / Real.pi) ∧ Real.arccos y * (180 / Real.pi) ≤ 180 := by
  have hpi := Real.pi_pos
  have h1 : 0 ≤ Real.arccos y := Real.arccos_nonneg y
  have h2 : Real.arccos y ≤ Real.pi := Real.arccos_le_pi y
  have hd : 0 < 180 / Real.pi := by positivity
  constructor
  · exact mul_nonneg h1 (le_of_lt hd)
  · have h3 : Real.arccos y * (180 / Real.pi) ≤ Real.pi * (180 / Real.pi) :=
      mul_le_mul_of_nonneg_right h2 (le_of_lt hd)
    have h4 : Real.pi * (180 / Real.pi) = 180 := by
      field_simp
    linarith

/-- C5.  For all inputs, the second-revision `calculateAngle` returns a
well-defined real value in [0, 180] — the cosine is clamped to [-1, 1]
before `acos` — and whenever either ray from the vertex has magnitude
below 0.001 it returns the fixed neutral value 180 instead of dividing
by zero.  (In the rational/real model totality is NaN-freedom.) -/
theorem calculateAngle_range_and_guard :
    (∀ p1 p2 p3 : ℝ × ℝ, 0 ≤ PostureAnalyzer.calculateAngle p1 p2 p3
      ∧ PostureAnalyzer.calculateAngle p1 p2 p3 ≤ 180)
  ∧ (∀ p1 p2 p3 : ℝ × ℝ,
      (Real.sqrt ((p1.1 - p2.1) ^ 2 + (p1.2 - p2.2) ^ 2) < 1/1000 ∨
        Real.sqrt ((p3.1 - p2.1) ^ 2 + (p3.2 - p2.2) ^ 2) < 1/1000) →
      PostureAnalyzer.calculateAngle p1 p2 p3 = 180) := by
  constructor
  · intro p1 p2 p3
    rw [PostureAnalyzer.calculateAngle]
    by_cases hg : Real.sqrt ((p1.1 - p2.1) ^ 2 + (p1.2 - p2.2) ^ 2) < 1/1000 ∨
        Real.sqrt ((p3.1 - p2.1) ^ 2 + (p3.2 - p2.2) ^ 2) < 1/1000
    · rw [if_pos hg]
      norm_num
    · rw [if_neg hg]
      exact arccos_deg_bounds _
  · intro p1 p2 p3 hg
    rw [PostureAnalyzer.calculateAngle, if_pos hg]

/-- Witness for C5: two coincident points trigger the guard, yielding
exactly 180, which lies in [0, 180]. -/
theorem calculateAngle_range_and_guard_witness :
    PostureAnalyzer.calculateAngle ((0 : ℝ), (0 : ℝ)) (0, 0) (1, 0) = 180
  ∧ 0 ≤ PostureAnalyzer.calculateAngle ((0 : ℝ), (0 : ℝ)) (0, 0) (1, 0) := by
  have hmag : Real.sqrt ((((0 : ℝ), (0 : ℝ)).1 - ((0 : ℝ), (0 : ℝ)).1) ^ 2 +
      (((0 : ℝ), (0 : ℝ)).2 - ((0 : ℝ), (0 : ℝ)).2) ^ 2) < 1/1000 := by
    norm_num [Real.sqrt_zero]
  exact ⟨calculateAngle_range_and_guard.2 ((0 : ℝ), (0 : ℝ)) (0, 0) (1, 0)
      (Or.inl hmag),
    (calculateAngle_range_and_guard.1 ((0 : ℝ), (0 : ℝ)) (0, 0) (1, 0)).1⟩

/-! ### C1: missing required keypoints -/

/-- C1 counterexample.  On a frame with no usable keypoints at all, the
backend `analyzePosture` returns its default result object: the overall
score is 100, not the claimed 0 (the second revision sets confidence 0,
and its record has no `valid` field at all). -/
theorem backend_missing_required_cex :
    (PostureAnalyzer.analyzePosture [] none).overallScore = 100
  ∧ (PostureAnalyzer.analyzePosture [] none).confidence = 0
  ∧ ¬ (PostureAnalyzer.analyzePosture [] none).overallScore = 0 := by
  refine ⟨rfl, rfl, ?_⟩
  intro h
  rw [show (PostureAnalyzer.analyzePosture [] none).overallScore = 100 from rfl] at h
  norm_num at h

/-- C1 (amended).  Only the front-end analyzer returns the claimed
sentinel: when nose or a shoulder is missing (or at/below its 0.5
confidence floor) it returns `{overallScore: 0, confidence: 0,
valid: false}`.  The backend analyzer instead returns its default object
with `overallScore = 100` — the second revision with `confidence = 0` —
and no `valid` field. -/
theorem analyzePosture_missing_required_sentinels :
    (∀ (kps : List Keypoint) (cal : Option PostureMonitor.Calibration),
      (PostureMonitor.getKeypoint kps noseName = none ∨
       PostureMonitor.getKeypoint kps leftShoulderName = none ∨
       PostureMonitor.getKeypoint kps rightShoulderName = none) →
      PostureMonitor.analyzePosture kps cal = ⟨0, 0, false, none⟩)
  ∧ (∀ (kps : List Keypoint) (prev : Option PostureAnalyzer.Analysis),
      (PostureAnalyzer.keypointMap kps noseName = none ∨
       PostureAnalyzer.keypointMap kps leftShoulderName = none ∨
       PostureAnalyzer.keypointMap kps rightShoulderName = none) →
      PostureAnalyzer.analyzePosture kps prev = ⟨false, false, false, 100, 0⟩) := by
  constructor
  · intro kps cal h
    rcases h with h | h | h
    · simp [PostureMonitor.analyzePosture, h]
    · cases hn : PostureMonitor.getKeypoint kps noseName <;>
        simp [PostureMonitor.analyzePosture, h, hn]
    · cases hn : PostureMonitor.getKeypoint kps noseName <;>
      cases hl : PostureMonitor.getKeypoint kps leftShoulderName <;>
        simp [PostureMonitor.analyzePosture, h, hn, hl]
  · intro kps prev h
    rcases h with h | h | h
    · simp [PostureAnalyzer.analyzePosture, h]
    · cases hn : PostureAnalyzer.keypointMap kps noseName <;>
        simp [PostureAnalyzer.analyzePosture, h, hn]
    · cases hn : PostureAnalyzer.keypointMap kps noseName <;>
      cases hl : PostureAnalyzer.keypointMap kps leftShoulderName <;>
        simp [PostureAnalyzer.analyzePosture, h, hn, hl]

/-- Witness for C1's theorem at the empty frame. -/
theorem analyzePosture_missing_required_sentinels_witness :
    PostureMonitor.analyzePosture [] none = ⟨0, 0, false, none⟩
  ∧ PostureAnalyzer.analyzePosture [] none = ⟨false, false, false, 100, 0⟩ :=
  ⟨analyzePosture_missing_required_sentinels.1 [] none (Or.inl rfl),
    analyzePosture_missing_required_sentinels.2 [] none (Or.inl rfl)⟩

/-! ### C7: frames with head and shoulders but no hips -/

/-- A frame with confident nose and shoulders but no hip keypoints. -/
def noHipFrame : List Keypoint :=
  [⟨noseName, 0, 0, 1⟩, ⟨leftShoulderName, 0, 1, 1⟩, ⟨rightShoulderName, 1, 1, 1⟩]

/-- A frame with confident nose, shoulders and left hip, but no right
hip keypoint. -/
def noRightHipFrame : List Keypoint :=
  [⟨noseName, 0, 0, 1⟩, ⟨leftShoulderName, 0, 1, 1⟩, ⟨rightShoulderName, 1, 1, 1⟩,
   ⟨leftHipName, 0, 1, 1⟩]

/-- C7 counterexample.  The front-end analyzer does NOT degrade
gracefully: on a frame with confident nose and shoulders but missing
hips it returns the invalid sentinel (`valid: false`, score 0), not a
valid assessment. -/
theorem frontend_hips_missing_invalid_cex :
    PostureMonitor.analyzePosture noHipFrame none = ⟨0, 0, false, none⟩
  ∧ ¬ (PostureMonitor.analyzePosture noHipFrame none).valid = true := by
  have hn : PostureMonitor.getKeypoint noHipFrame noseName
      = some ⟨noseName, 0, 0, 1⟩ := by
    norm_num [PostureMonitor.getKeypoint, noHipFrame, List.find?_cons, noseName,
      show ("nose" == "nose") = true from rfl]
  have hl : PostureMonitor.getKeypoint noHipFrame leftShoulderName
      = some ⟨leftShoulderName, 0, 1, 1⟩ := by
    norm_num [PostureMonitor.getKeypoint, noHipFrame, List.find?_cons, noseName,
      leftShoulderName,
      show ("nose" == "left_shoulder") = false from rfl,
      show ("left_shoulder" == "left_shoulder") = true from rfl]
  have hr : PostureMonitor.getKeypoint noHipFrame rightShoulderName
      = some ⟨rightShoulderName, 1, 1, 1⟩ := by
    norm_num [PostureMonitor.getKeypoint, noHipFrame, List.find?_cons, noseName,
      leftShoulderName, rightShoulderName,
      show ("nose" == "right_shoulder") = false from rfl,
      show ("left_shoulder" == "right_shoulder") = false from rfl,
      show ("right_shoulder" == "right_shoulder") = true from rfl]
  have hlh : PostureMonitor.getKeypoint noHipFrame leftHipName = none := by
    norm_num [PostureMonitor.getKeypoint, noHipFrame, List.find?_cons, noseName,
      leftShoulderName, rightShoulderName, leftHipName,
      show ("nose" == "left_hip") = false from rfl,
      show ("left_shoulder" == "left_hip") = false from rfl,
      show ("right_shoulder" == "left_hip") = false from rfl]
  have hres : PostureMonitor.analyzePosture noHipFrame none = ⟨0, 0, false, none⟩ := by
    cases hrh : PostureMonitor.getKeypoint noHipFrame rightHipName <;>
      simp [PostureMonitor.analyzePosture, hn, hl, hr, hlh, hrh]
  refine ⟨hres, ?_⟩
  rw [hres]
  simp

/-- C7 (amended).  The backend analyzer is the one that degrades
gracefully: with nose and both shoulders present but one or both hips
missing, `roundedShoulders` and `torsoLeanFlag` stay false-by-default,
`forwardHead` is still computed from the head and shoulder keypoints
alone and the confidence is the mean of the three required scores.  The
front-end analyzer instead requires both hips and returns the invalid
sentinel whenever either hip is missing. -/
theorem analyzePosture_hips_missing_degrades :
    (∀ (kps : List Keypoint) (prev : Option PostureAnalyzer.Analysis)
        (nose ls rs : Keypoint),
      PostureAnalyzer.keypointMap kps noseName = some nose →
      PostureAnalyzer.keypointMap kps leftShoulderName = some ls →
      PostureAnalyzer.keypointMap kps rightShoulderName = some rs →
      (PostureAnalyzer.keypointMap kps leftHipName = none ∨
       PostureAnalyzer.keypointMap kps rightHipName = none) →
        (PostureAnalyzer.analyzePosture kps prev).roundedShoulders = false
      ∧ (PostureAnalyzer.analyzePosture kps prev).torsoLeanFlag = false
      ∧ (PostureAnalyzer.analyzePosture kps prev).forwardHead =
          PostureAnalyzer.jsDivGt
            ((PostureAnalyzer.headPointOf (PostureAnalyzer.keypointMap kps leftEarName)
                (PostureAnalyzer.keypointMap kps rightEarName) nose).1
              - (ls.x + rs.x) / 2)
            |ls.x - rs.x|
            (12/100 + 1/10 * (1 - (nose.score + ls.score + rs.score) / 3))
      ∧ (PostureAnalyzer.analyzePosture kps prev).confidence
          = (nose.score + ls.score + rs.score) / 3)
  ∧ (∀ (kps : List Keypoint) (cal : Option PostureMonitor.Calibration),
      (PostureMonitor.getKeypoint kps leftHipName = none ∨
       PostureMonitor.getKeypoint kps rightHipName = none) →
      PostureMonitor.analyzePosture kps cal = ⟨0, 0, false, none⟩) := by
  constructor
  · intro kps prev nose ls rs hn hl hr hh
    rcases hh with hh | hh
    · refine ⟨?_, ?_, ?_, ?_⟩ <;>
        simp [PostureAnalyzer.analyzePosture, hn, hl, hr, hh]
    · cases hlh : PostureAnalyzer.keypointMap kps leftHipName <;>
        (refine ⟨?_, ?_, ?_, ?_⟩ <;>
          simp [PostureAnalyzer.analyzePosture, hn, hl, hr, hlh, hh])
  · intro kps cal h
    rcases h with h | h
    · cases hn : PostureMonitor.getKeypoint kps noseName <;>
      cases hl : PostureMonitor.getKeypoint kps leftShoulderName <;>
      cases hr : PostureMonitor.getKeypoint kps rightShoulderName <;>
        simp [PostureMonitor.analyzePosture, hn, hl, hr, h]
    · cases hn : PostureMonitor.getKeypoint kps noseName <;>
      cases hl : PostureMonitor.getKeypoint kps leftShoulderName <;>
      cases hr : PostureMonitor.getKeypoint kps rightShoulderName <;>
      cases hlh : PostureMonitor.getKeypoint kps leftHipName <;>
        simp [PostureMonitor.analyzePosture, hn, hl, hr, hlh, h]

/-- Witness for C7's theorem: a frame with both hips missing and a frame
with only the right hip missing, exercising both disjuncts. -/
theorem analyzePosture_hips_missing_degrades_witness :
    ((PostureAnalyzer.analyzePosture noHipFrame none).roundedShoulders = false
  ∧ (PostureAnalyzer.analyzePosture noHipFrame none).torsoLeanFlag = false)
  ∧ ((PostureAnalyzer.analyzePosture noRightHipFrame none).roundedShoulders = false
  ∧ (PostureAnalyzer.analyzePosture noRightHipFrame none).torsoLeanFlag = false)
  ∧ PostureMonitor.analyzePosture noRightHipFrame none = ⟨0, 0, false, none⟩ := by
  have hn : PostureAnalyzer.keypointMap noHipFrame noseName
      = some ⟨noseName, 0, 0, 1⟩ := by
    norm_num [PostureAnalyzer.keypointMap, noHipFrame, List.find?_cons,
      List.filter_cons, noseName, leftShoulderName, rightShoulderName,
      show ("nose" == "nose") = true from rfl,
      show ("left_shoulder" == "nose") = false from rfl,
      show ("right_shoulder" == "nose") = false from rfl]
  have hl : PostureAnalyzer.keypointMap noHipFrame leftShoulderName
      = some ⟨leftShoulderName, 0, 1, 1⟩ := by
    norm_num [PostureAnalyzer.keypointMap, noHipFrame, List.find?_cons,
      List.filter_cons, noseName, leftShoulderName, rightShoulderName,
      show ("nose" == "left_shoulder") = false from rfl,
      show ("left_shoulder" == "left_shoulder") = true from rfl,
      show ("right_shoulder" == "left_shoulder") = false from rfl]
  have hr : PostureAnalyzer.keypointMap noHipFrame rightShoulderName
      = some ⟨rightShoulderName, 1, 1, 1⟩ := by
    norm_num [PostureAnalyzer.keypointMap, noHipFrame, List.find?_cons,
      List.filter_cons, noseName, leftShoulderName, rightShoulderName,
      show ("nose" == "right_shoulder") = false from rfl,
      show ("left_shoulder" == "right_shoulder") = false from rfl,
      show ("right_shoulder" == "right_shoulder") = true from rfl]
  have hlh : PostureAnalyzer.keypointMap noHipFrame leftHipName = none := by
    norm_num [PostureAnalyzer.keypointMap, noHipFrame, List.find?_cons,
      List.filter_cons, noseName, leftShoulderName, rightShoulderName, leftHipName,
      show ("nose" == "left_hip") = false from rfl,
      show ("left_shoulder" == "left_hip") = false from rfl,
      show ("right_shoulder" == "left_hip") = false from rfl]
  have hfe : PostureMonitor.getKeypoint noHipFrame leftHipName = none := by
    norm_num [PostureMonitor.getKeypoint, noHipFrame, List.find?_cons,
      noseName, leftShoulderName, rightShoulderName, leftHipName,
      show ("nose" == "left_hip") = false from rfl,
      show ("left_shoulder" == "left_hip") = false from rfl,
      show ("right_shoulder" == "left_hip") = false from rfl]
  have hn2 : PostureAnalyzer.keypointMap noRightHipFrame noseName
      = some ⟨noseName, 0, 0, 1⟩ := by
    norm_num [PostureAnalyzer.keypointMap, noRightHipFrame, List.find?_cons,
      List.filter_cons, noseName, leftShoulderName, rightShoulderName, leftHipName,
      show ("nose" == "nose") = true from rfl,
      show ("left_shoulder" == "nose") = false from rfl,
      show ("right_shoulder" == "nose") = false from rfl,
      show ("left_hip" == "nose") = false from rfl]
  have hl2 : PostureAnalyzer.keypointMap noRightHipFrame leftShoulderName
      = some ⟨leftShoulderName, 0, 1, 1⟩ := by
    norm_num [PostureAnalyzer.keypointMap, noRightHipFrame, List.find?_cons,
      List.filter_cons, noseName, leftShoulderName, rightShoulderName, leftHipName,
      show ("nose" == "left_shoulder") = false from rfl,
      show ("left_shoulder" == "left_shoulder") = true from rfl,
      show ("right_shoulder" == "left_shoulder") = false from rfl,
      show ("left_hip" == "left_shoulder") = false from rfl]
  have hr2 : PostureAnalyzer.keypointMap noRightHipFrame rightShoulderName
      = some ⟨rightShoulderName, 1, 1, 1⟩ := by
    norm_num [PostureAnalyzer.keypointMap, noRightHipFrame, List.find?_cons,
      List.filter_cons, noseName, leftShoulderName, rightShoulderName, leftHipName,
      show ("nose" == "right_shoulder") = false from rfl,
      show ("left_shoulder" == "right_shoulder") = false from rfl,
      show ("right_shoulder" == "right_shoulder") = true from rfl,
      show ("left_hip" == "right_shoulder") = false from rfl]
  have hrh2 : PostureAnalyzer.keypointMap noRightHipFrame rightHipName = none := by
    norm_num [PostureAnalyzer.keypointMap, noRightHipFrame, List.find?_cons,
      List.filter_cons, noseName, leftShoulderName, rightShoulderName, leftHipName,
      rightHipName,
      show ("nose" == "right_hip") = false from rfl,
      show ("left_shoulder" == "right_hip") = false from rfl,
      show ("right_shoulder" == "right_hip") = false from rfl,
      show ("left_hip" == "right_hip") = false from rfl]
  have hfe2 : PostureMonitor.getKeypoint noRightHipFrame rightHipName = none := by
    norm_num [PostureMonitor.getKeypoint, noRightHipFrame, List.find?_cons,
      noseName, leftShoulderName, rightShoulderName, leftHipName, rightHipName,
      show ("nose" == "right_hip") = false from rfl,
      show ("left_shoulder" == "right_hip") = false from rfl,
      show ("right_shoulder" == "right_hip") = false from rfl,
      show ("left_hip" == "right_hip") = false from rfl]
  have h1 := analyzePosture_hips_missing_degrades.1 noHipFrame none
    ⟨noseName, 0, 0, 1⟩ ⟨leftShoulderName, 0, 1, 1⟩ ⟨rightShoulderName, 1, 1, 1⟩
    hn hl hr (Or.inl hlh)
  have h2 := analyzePosture_hips_missing_degrades.1 noRightHipFrame none
    ⟨noseName, 0, 0, 1⟩ ⟨leftShoulderName, 0, 1, 1⟩ ⟨rightShoulderName, 1, 1, 1⟩
    hn2 hl2 hr2 (Or.inr hrh2)
  exact ⟨⟨h1.1, h1.2.1⟩, ⟨h2.1, h2.2.1⟩,
    analyzePosture_hips_missing_degrades.2 noRightHipFrame none (Or.inr hfe2)⟩

/-! ### C2: the overall score is always a well-defined value in [0, 100] -/

theorem clampScore_bounds (a b c : Bool) (conf : ℚ) (hconf : conf ≤ 1) :
    0 ≤ max 0 (100 - ((if a then (35 : ℚ) else 0) + (if b then 30 else 0) +
        (if c then 25 else 0)) - (1 - conf) * 20)
  ∧ max 0 (100 - ((if a then (35 : ℚ) else 0) + (if b then 30 else 0) +
        (if c then 25 else 0)) - (1 - conf) * 20) ≤ 100 := by
  constructor
  · exact le_max_left 0 _
  · apply max_le (by norm_num)
    have hd : 0 ≤ (if a then (35 : ℚ) else 0) + (if b then 30 else 0) +
        (if c then 25 else 0) := by
      split_ifs <;> norm_num
    linarith

theorem blended_bounds (a b c : Bool) (conf ps : ℚ) (hconf : conf ≤ 1)
    (h0 : 0 ≤ ps) (h1 : ps ≤ 100) :
    0 ≤ (if 6/10 < conf
        then ps * (3/10) + (max 0 (100 - ((if a then (35 : ℚ) else 0) +
          (if b then 30 else 0) + (if c then 25 else 0)) - (1 - conf) * 20)) * (7/10)
        else max 0 (100 - ((if a then (35 : ℚ) else 0) + (if b then 30 else 0) +
          (if c then 25 else 0)) - (1 - conf) * 20))
  ∧ (if 6/10 < conf
        then ps * (3/10) + (max 0 (100 - ((if a then (35 : ℚ) else 0) +
          (if b then 30 else 0) + (if c then 25 else 0)) - (1 - conf) * 20)) * (7/10)
        else max 0 (100 - ((if a then (35 : ℚ) else 0) + (if b then 30 else 0) +
          (if c then 25 else 0)) - (1 - conf) * 20)) ≤ 100 := by
  have hc := clampScore_bounds a b c conf hconf
  by_cases h : 6/10 < conf
  · rw [if_pos h]
    constructor
    · linarith [hc.1]
    · linarith [hc.2]
  · rw [if_neg h]
    exact hc

theorem analyzePostureV2_score_bounds (kps : List Keypoint)
    (prev : Option PostureAnalyzer.Analysis)
    (hscore : ∀ kp ∈ kps, 0 ≤ kp.score ∧ kp.score ≤ 1)
    (hprev : ∀ p, prev = some p → 0 ≤ p.overallScore ∧ p.overallScore ≤ 100) :
    0 ≤ (PostureAnalyzer.analyzePosture kps prev).overallScore
  ∧ (PostureAnalyzer.analyzePosture kps prev).overallScore ≤ 100 := by
  cases hn : PostureAnalyzer.keypointMap kps noseName with
  | none => norm_num [PostureAnalyzer.analyzePosture, hn]
  | some nose =>
  cases hl : PostureAnalyzer.keypointMap kps leftShoulderName with
  | none => norm_num [PostureAnalyzer.analyzePosture, hn, hl]
  | some ls =>
  cases hr : PostureAnalyzer.keypointMap kps rightShoulderName with
  | none => norm_num [PostureAnalyzer.analyzePosture, hn, hl, hr]
  | some rs =>
  have hconf1 : (nose.score + ls.score + rs.score) / 3 ≤ 1 := by
    have a1 := hscore nose (PostureAnalyzer.keypointMap_mem hn)
    have a2 := hscore ls (PostureAnalyzer.keypointMap_mem hl)
    have a3 := hscore rs (PostureAnalyzer.keypointMap_mem hr)
    linarith [a1.2, a2.2, a3.2]
  cases prev with
  | none =>
    simp only [PostureAnalyzer.analyzePosture, hn, hl, hr]
    exact clampScore_bounds _ _ _ _ hconf1
  | some p =>
    have hp := hprev p rfl
    simp only [PostureAnalyzer.analyzePosture, hn, hl, hr]
    exact blended_bounds _ _ _ _ _ hconf1 hp.1 hp.2

theorem calculateShoulderSlope_nonneg (a b : Option Keypoint) :
    0 ≤ PostureMonitor.calculateShoulderSlope a b := by
  unfold PostureMonitor.calculateShoulderSlope
  rcases a with _ | a <;> rcases b with _ | b <;> simp [abs_nonneg]

theorem calculateTorsoAngle_nonneg (a b c d : Option Keypoint) :
    0 ≤ PostureMonitor.calculateTorsoAngle a b c d := by
  unfold PostureMonitor.calculateTorsoAngle
  rcases a with _ | a <;> rcases b with _ | b <;> rcases c with _ | c <;>
    rcases d with _ | d <;> simp [abs_nonneg]

theorem rawScore_bounds (neck slope torso nb : ℝ) (hs : 0 ≤ slope) (ht : 0 ≤ torso) :
    0 ≤ max 0 (100 - max 0 (neck - nb) * 8) * (4/10) +
        max 0 (100 - slope * 10) * (3/10) + max 0 (100 - torso * 5) * (3/10)
  ∧ max 0 (100 - max 0 (neck - nb) * 8) * (4/10) +
        max 0 (100 - slope * 10) * (3/10) + max 0 (100 - torso * 5) * (3/10) ≤ 100 := by
  have h1a : (0 : ℝ) ≤ max 0 (100 - max 0 (neck - nb) * 8) := le_max_left _ _
  have h1b : max 0 (100 - max 0 (neck - nb) * 8) ≤ 100 := by
    apply max_le (by norm_num)
    have h := le_max_left (0 : ℝ) (neck - nb)
    nlinarith
  have h2a : (0 : ℝ) ≤ max 0 (100 - slope * 10) := le_max_left _ _
  have h2b : max 0 (100 - slope * 10) ≤ 100 := by
    apply max_le (by norm_num)
    nlinarith
  have h3a : (0 : ℝ) ≤ max 0 (100 - torso * 5) := le_max_left _ _
  have h3b : max 0 (100 - torso * 5) ≤ 100 := by
    apply max_le (by norm_num)
    nlinarith
  constructor <;> nlinarith

theorem round_bounds (x : ℝ) (h0 : 0 ≤ x) (h1 : x ≤ 100) :
    0 ≤ ((round x : ℤ) : ℚ) ∧ ((round x : ℤ) : ℚ) ≤ 100 := by
  have hl : (0 : ℤ) ≤ round x := by
    rw [round_eq]
    exact Int.floor_nonneg.mpr (by linarith)
  have hfl : ((⌊x + 1/2⌋ : ℤ) : ℝ) ≤ x + 1/2 := Int.floor_le _
  have hu : round x ≤ 100 := by
    rw [round_eq]
    have h2 : ((⌊x + 1/2⌋ : ℤ) : ℝ) < 101 := by linarith
    have h3 : (⌊x + 1/2⌋ : ℤ) < 101 := by exact_mod_cast h2
    omega
  constructor
  · exact_mod_cast hl
  · exact_mod_cast hu

theorem frontend_valid_bounds (neck slope torso nb : ℝ) (conf : ℚ)
    (hs : 0 ≤ slope) (ht : 0 ≤ torso) (hc0 : 0 ≤ conf) (hc1 : conf ≤ 1) :
    0 ≤ ((round ((max 0 (100 - max 0 (neck - nb) * 8) * (4/10) +
          max 0 (100 - slope * 10) * (3/10) + max 0 (100 - torso * 5) * (3/10)) *
          (conf : ℝ)) : ℤ) : ℚ)
  ∧ ((round ((max 0 (100 - max 0 (neck - nb) * 8) * (4/10) +
          max 0 (100 - slope * 10) * (3/10) + max 0 (100 - torso * 5) * (3/10)) *
          (conf : ℝ)) : ℤ) : ℚ) ≤ 100 := by
  have hraw := rawScore_bounds neck slope torso nb hs ht
  have hcr0 : (0 : ℝ) ≤ (conf : ℝ) := by exact_mod_cast hc0
  have hcr1 : (conf : ℝ) ≤ 1 := by exact_mod_cast hc1
  apply round_bounds
  · exact mul_nonneg hraw.1 hcr0
  · calc (max 0 (100 - max 0 (neck - nb) * 8) * (4/10) +
          max 0 (100 - slope * 10) * (3/10) + max 0 (100 - torso * 5) * (3/10)) *
          (conf : ℝ)
        ≤ (max 0 (100 - max 0 (neck - nb) * 8) * (4/10) +
          max 0 (100 - slope * 10) * (3/10) + max 0 (100 - torso * 5) * (3/10)) * 1 :=
          mul_le_mul_of_nonneg_left hcr1 hraw.1
      _ ≤ 100 := by rw [mul_one]; exact hraw.2

theorem analyzePostureFrontend_score_bounds (kps : List Keypoint)
    (cal : Option PostureMonitor.Calibration) :
    0 ≤ (PostureMonitor.analyzePosture kps cal).overallScore
  ∧ (PostureMonitor.analyzePosture kps cal).overallScore ≤ 100 := by
  cases hn : PostureMonitor.getKeypoint kps noseName with
  | none => norm_num [PostureMonitor.analyzePosture, hn]
  | some nose =>
  cases hl : PostureMonitor.getKeypoint kps leftShoulderName with
  | none => norm_num [PostureMonitor.analyzePosture, hn, hl]
  | some ls =>
  cases hr : PostureMonitor.getKeypoint kps rightShoulderName with
  | none => norm_num [PostureMonitor.analyzePosture, hn, hl, hr]
  | some rs =>
  cases hlh : PostureMonitor.getKeypoint kps leftHipName with
  | none => norm_num [PostureMonitor.analyzePosture, hn, hl, hr, hlh]
  | some lh =>
  cases hrh : PostureMonitor.getKeypoint kps rightHipName with
  | none => norm_num [PostureMonitor.analyzePosture, hn, hl, hr, hlh, hrh]
  | some rh =>
  have hn2 := PostureMonitor.getKeypoint_score hn
  have hl2 := PostureMonitor.getKeypoint_score hl
  have hr2 := PostureMonitor.getKeypoint_score hr
  have hc0 : (0 : ℚ) ≤ min 1 ((nose.score + ls.score + rs.score) / 3) :=
    le_min (by norm_num) (by linarith)
  have hc1 : min 1 ((nose.score + ls.score + rs.score) / 3) ≤ (1 : ℚ) :=
    min_le_left _ _
  have hs0 := calculateShoulderSlope_nonneg (some ls) (some rs)
  have ht0 := calculateTorsoAngle_nonneg (some ls) (some lh) (some rs) (some rh)
  simp only [PostureMonitor.analyzePosture, hn, hl, hr, hlh, hrh]
  exact frontend_valid_bounds _ _ _ _ _ hs0 ht0 hc0 hc1

/-- C2.  For every input frame with keypoint coordinates and scores in
[0, 1] — including degenerate coincident points such as zero shoulder
width — the overall score produced by both analyzers is a well-defined
rational in [0, 100]: the clamp `max 0 (...)` bounds it below, the
nonnegative deductions and confidence penalty bound it above, and the
degenerate-denominator paths (zero shoulder width in the forward-head
ratio, near-zero hip width, zero-magnitude torso rays) all resolve to
defined boolean/neutral fallbacks (`jsDivGt`, the 0.05 hip-width guard,
the 0.001 magnitude guard) rather than an undefined score.  The previous
analysis fed back into the blend is assumed in range, as every produced
score is. -/
theorem overallScore_bounds (kps : List Keypoint)
    (prev : Option PostureAnalyzer.Analysis) (cal : Option PostureMonitor.Calibration)
    (hscore : ∀ kp ∈ kps, 0 ≤ kp.score ∧ kp.score ≤ 1)
    (hcoord : ∀ kp ∈ kps, 0 ≤ kp.x ∧ kp.x ≤ 1 ∧ 0 ≤ kp.y ∧ kp.y ≤ 1)
    (hprev : ∀ p, prev = some p → 0 ≤ p.overallScore ∧ p.overallScore ≤ 100) :
    (0 ≤ (PostureAnalyzer.analyzePosture kps prev).overallScore
      ∧ (PostureAnalyzer.analyzePosture kps prev).overallScore ≤ 100)
  ∧ (0 ≤ (PostureMonitor.analyzePosture kps cal).overallScore
      ∧ (PostureMonitor.analyzePosture kps cal).overallScore ≤ 100) :=
  ⟨analyzePostureV2_score_bounds kps prev hscore hprev,
    analyzePostureFrontend_score_bounds kps cal⟩

/-- Witness for C2 on a concrete degenerate-free frame (the same frame
also exercises the missing-hip paths of both analyzers). -/
theorem overallScore_bounds_witness :
    (0 ≤ (PostureAnalyzer.analyzePosture noHipFrame none).overallScore
      ∧ (PostureAnalyzer.analyzePosture noHipFrame none).overallScore ≤ 100)
  ∧ (0 ≤ (PostureMonitor.analyzePosture noHipFrame none).overallScore
      ∧ (PostureMonitor.analyzePosture noHipFrame none).overallScore ≤ 100) :=
  overallScore_bounds noHipFrame none none
    (by
      intro kp hkp
      simp only [noHipFrame, List.mem_cons, List.not_mem_nil, or_false] at hkp
      rcases hkp with rfl | rfl | rfl <;> norm_num)
    (by
      intro kp hkp
      simp only [noHipFrame, List.mem_cons, List.not_mem_nil, or_false] at hkp
      rcases hkp with rfl | rfl | rfl <;> norm_num)
    (fun p h => Option.noConfusion h)
